import Mathlib

/-!
# Verification of the `servicepytan` data facade (`src/servicepytan/data.py`)

This file shallowly embeds the `DataService` class of `data.py`.  The class is a
thin facade: every method builds a query-parameter mapping (a Python `dict` of
strings) and delegates to the external collaborator
`Endpoint(folder, endpoint, version, conn).get_all(options)`.

Modelling choices:

* A Python options `dict` is an association list `Dict := List (String × String)`
  with first-match lookup (`getKey`) and Python-style item assignment (`setKey`:
  updating an existing key keeps its position, a new key is appended).
* The collaborator `Endpoint(...).get_all` is an oracle `getAll : FetchCall → List α`
  supplied as a parameter; a `FetchCall` records the folder, endpoint, version
  path segment and options of one underlying fetch.
* Date conversion `_convert_date_to_api_format(date, timezone)` (module
  `_dates`, a collaborator) is an oracle `conv : String → String → String`,
  and the facade's bound timezone is an opaque string `tz`.
* Each method returns a `FetchResult α`: the records it returns, the trace of
  underlying fetch calls in the order they were issued, and the warnings it
  printed.  Fallible methods (indexing, comma-join over duck-typed values,
  field access during aggregation) return `Except String _`.
-/

namespace Servicepytan

/-- A Python options `dict` mapping query-parameter names to values,
embedded as an association list with first-match lookup. -/
abbrev Dict := List (String × String)

/-- First-match lookup, the embedding of Python `d[k]` read access. -/
def getKey : Dict → String → Option String
  | [], _ => none
  | p :: rest, k => if p.1 == k then some p.2 else getKey rest k

/-- Python `d[k] = v` item assignment on a dict: if the key is present its
value is replaced keeping its position, otherwise the pair is appended at
the end (Python dicts preserve insertion order and hold each key once). -/
def setKey : Dict → String → String → Dict
  | [], k, v => [(k, v)]
  | p :: rest, k, v => if p.1 == k then (k, v) :: rest else p :: setKey rest k v

/-- One underlying fetch issued through the collaborator
`Endpoint(folder, endpoint, version, conn).get_all(options)`.  Per the
collaborator contract the request goes to `/{version}/tenant/{folder}/{endpoint}`,
so `version` is the version path segment as a string. -/
structure FetchCall where
  folder : String
  endpoint : String
  version : String
  options : Dict
deriving Repr, DecidableEq

/-- Modelled from the spec: the default API version of the collaborator
`Endpoint` when a facade method passes no `version` argument.  `Endpoint`
lives in `requests.py`, which is not part of the sources here; the spec fixes
its default version to `2`. -/
def endpointDefaultVersion : String := "2"

/-- The observable effect of one facade method: the records returned, the
underlying fetch calls in the order they were issued, and the warning lines
printed to the console. -/
structure FetchResult (α : Type) where
  records : List α
  calls : List FetchCall
  warnings : List String
deriving Repr, DecidableEq

/-- Embedding of `DataService.get_api_data` (`data.py` lines 20–39).
`options = none` embeds the Python default `options=None`: in that case the
method prints a warning and proceeds with an empty dict; in every other case
(including an explicitly supplied empty dict) it proceeds silently.  Either
way it delegates the options to the collaborator's paged fetch. -/
def get_api_data {α : Type} (getAll : FetchCall → List α) (folder endpoint : String)
    (options : Option Dict := none) (version : String := "2") : FetchResult α :=
  let warnings :=
    match options with
    | none => ["WARNING: You have not put any options in so this will call EVERYTHING! Endpoint: "
                ++ folder ++ ", " ++ endpoint]
    | some _ => []
  let opts := options.getD []
  let call : FetchCall := ⟨folder, endpoint, version, opts⟩
  { records := getAll call, calls := [call], warnings := warnings }

/-- Embedding of `DataService.get_api_data_between` (`data.py` lines 41–63) in
the case `options=None` is replaced by a fresh dict, and for a caller-supplied
dict value.  The two date-filter keys are written into the options dict with
Python item assignment (overwriting caller-supplied values under those keys)
and the merged dict is delegated to `get_api_data`. -/
def get_api_data_between {α : Type} (getAll : FetchCall → List α) (tz : String)
    (conv : String → String → String) (folder endpoint start_date end_date : String)
    (date_filter_modifier : String := "completed") (options : Option Dict := none)
    (version : String := "2") : FetchResult α :=
  let opts0 := options.getD []
  let opts1 := setKey opts0 (date_filter_modifier ++ "OnOrAfter") (conv start_date tz)
  let opts2 := setKey opts1 (date_filter_modifier ++ "Before") (conv end_date tz)
  get_api_data getAll folder endpoint (some opts2) version

/-- The options dict built for one status iteration of
`DataService.get_jobs_completed_between` (`data.py` lines 86–95). -/
def jobsCompletedOptions (tz : String) (conv : String → String → String)
    (start_date end_date status : String) (app_guid : Option String) : Dict :=
  let base : Dict :=
    [("jobStatus", status),
     ("completedOnOrAfter", conv start_date tz),
     ("completedBefore", conv end_date tz)]
  match app_guid with
  | some g => base ++ [("externalDataApplicationGuid", g)]
  | none => base

/-- The fetch issued for one status iteration of `get_jobs_completed_between`:
`Endpoint("jpm", "jobs", conn=...).get_all(options)` with no version argument. -/
def jobsCompletedCall (tz : String) (conv : String → String → String)
    (start_date end_date : String) (app_guid : Option String) (status : String) : FetchCall :=
  ⟨"jpm", "jobs", endpointDefaultVersion, jobsCompletedOptions tz conv start_date end_date status app_guid⟩

/-- Embedding of `DataService.get_jobs_completed_between` (`data.py` lines
65–97): `data = []`, then for each status an options dict is built, one fetch
is issued, and its records are appended with `data.extend(...)`. -/
def get_jobs_completed_between {α : Type} (getAll : FetchCall → List α) (tz : String)
    (conv : String → String → String) (start_date end_date : String)
    (job_status : List String := ["Completed", "Scheduled", "InProgress", "Dispatched"])
    (app_guid : Option String := none) : FetchResult α :=
  job_status.foldl
    (fun acc status =>
      let call := jobsCompletedCall tz conv start_date end_date app_guid status
      { records := acc.records ++ getAll call,
        calls := acc.calls ++ [call],
        warnings := acc.warnings })
    { records := [], calls := [], warnings := [] }

/-- Embedding of `DataService.get_jobs_created_between` (`data.py` lines 99–122). -/
def get_jobs_created_between {α : Type} (getAll : FetchCall → List α) (tz : String)
    (conv : String → String → String) (start_date end_date : String)
    (app_guid : Option String := none) : FetchResult α :=
  let base : Dict :=
    [("createdOnOrAfter", conv start_date tz),
     ("createdBefore", conv end_date tz)]
  let options := match app_guid with
    | some g => base ++ [("externalDataApplicationGuid", g)]
    | none => base
  let call : FetchCall := ⟨"jpm", "jobs", endpointDefaultVersion, options⟩
  { records := getAll call, calls := [call], warnings := [] }

/-- The fetch issued for one status iteration of
`DataService.get_appointments_between` (`data.py` lines 145–152). -/
def appointmentsCall (tz : String) (conv : String → String → String)
    (start_date end_date status : String) : FetchCall :=
  ⟨"jpm", "appointments", endpointDefaultVersion,
   [("status", status),
    ("startsOnOrAfter", conv start_date tz),
    ("startsBefore", conv end_date tz)]⟩

/-- Embedding of `DataService.get_appointments_between` (`data.py` lines
124–154): one fetch per appointment status, results extended in order. -/
def get_appointments_between {α : Type} (getAll : FetchCall → List α) (tz : String)
    (conv : String → String → String) (start_date end_date : String)
    (appointment_status : List String := ["Scheduled", "Dispatched", "Working", "Done"]) :
    FetchResult α :=
  appointment_status.foldl
    (fun acc status =>
      let call := appointmentsCall tz conv start_date end_date status
      { records := acc.records ++ getAll call,
        calls := acc.calls ++ [call],
        warnings := acc.warnings })
    { records := [], calls := [], warnings := [] }

/-- Embedding of `DataService.get_sold_estimates_between` (`data.py` lines
156–178): note the lower-bound key is `soldAfter`, not `soldOnOrAfter`. -/
def get_sold_estimates_between {α : Type} (getAll : FetchCall → List α) (tz : String)
    (conv : String → String → String) (start_date end_date : String) : FetchResult α :=
  let options : Dict :=
    [("active", "True"),
     ("soldAfter", conv start_date tz),
     ("soldBefore", conv end_date tz)]
  let call : FetchCall := ⟨"sales", "estimates", endpointDefaultVersion, options⟩
  { records := getAll call, calls := [call], warnings := [] }

/-- Embedding of `DataService.get_purchase_orders_created_between`
(`data.py` lines 207–228). -/
def get_purchase_orders_created_between {α : Type} (getAll : FetchCall → List α) (tz : String)
    (conv : String → String → String) (start_date end_date : String) : FetchResult α :=
  let options : Dict :=
    [("createdOnOrAfter", conv start_date tz),
     ("createdBefore", conv end_date tz)]
  let call : FetchCall := ⟨"inventory", "purchase-orders", endpointDefaultVersion, options⟩
  { records := getAll call, calls := [call], warnings := [] }

/-- Embedding of `DataService.get_jobs_modified_between` (`data.py` lines 230–255). -/
def get_jobs_modified_between {α : Type} (getAll : FetchCall → List α) (tz : String)
    (conv : String → String → String) (start_date end_date : String)
    (app_guid : Option String := none) : FetchResult α :=
  let base : Dict :=
    [("modifiedOnOrAfter", conv start_date tz),
     ("modifiedBefore", conv end_date tz)]
  let options := match app_guid with
    | some g => base ++ [("externalDataApplicationGuid", g)]
    | none => base
  let call : FetchCall := ⟨"jpm", "jobs", endpointDefaultVersion, options⟩
  { records := getAll call, calls := [call], warnings := [] }

/-- Embedding of `DataService.get_calls_between` (`data.py` lines 363–384):
the only method passing an explicit version, the string `"3"`. -/
def get_calls_between {α : Type} (getAll : FetchCall → List α) (tz : String)
    (conv : String → String → String) (start_date end_date : String) : FetchResult α :=
  let options : Dict :=
    [("createdOnOrAfter", conv start_date tz),
     ("createdBefore", conv end_date tz)]
  let call : FetchCall := ⟨"telecom", "calls", "3", options⟩
  { records := getAll call, calls := [call], warnings := [] }

/-- Embedding of `DataService.get_bookings_between` (`data.py` lines 386–407). -/
def get_bookings_between {α : Type} (getAll : FetchCall → List α) (tz : String)
    (conv : String → String → String) (start_date end_date : String) : FetchResult α :=
  let options : Dict :=
    [("createdOnOrAfter", conv start_date tz),
     ("createdBefore", conv end_date tz)]
  let call : FetchCall := ⟨"crm", "bookings", endpointDefaultVersion, options⟩
  { records := getAll call, calls := [call], warnings := [] }

/-- Embedding of `DataService.get_payments_between` (`data.py` lines 409–430):
note the keys are `paidOnAfter` / `paidOnBefore`. -/
def get_payments_between {α : Type} (getAll : FetchCall → List α) (tz : String)
    (conv : String → String → String) (start_date end_date : String) : FetchResult α :=
  let options : Dict :=
    [("paidOnAfter", conv start_date tz),
     ("paidOnBefore", conv end_date tz)]
  let call : FetchCall := ⟨"accounting", "payments", endpointDefaultVersion, options⟩
  { records := getAll call, calls := [call], warnings := [] }

/-- Embedding of `DataService.get_invoices_between` (`data.py` lines 432–453):
note the keys are `invoicedOnOrAfter` / `invoicedOnBefore`. -/
def get_invoices_between {α : Type} (getAll : FetchCall → List α) (tz : String)
    (conv : String → String → String) (start_date end_date : String) : FetchResult α :=
  let options : Dict :=
    [("invoicedOnOrAfter", conv start_date tz),
     ("invoicedOnBefore", conv end_date tz)]
  let call : FetchCall := ⟨"accounting", "invoices", endpointDefaultVersion, options⟩
  { records := getAll call, calls := [call], warnings := [] }

/-- A duck-typed Python value as it appears in the id lists handed to
`get_invoices_by_id` and `get_payments_for_invoices`: either a string or an
integer (the docstring examples pass integers). -/
inductive PyVal where
  | str (s : String)
  | int (n : Int)
deriving Repr, DecidableEq

/-- Whether a `PyVal` is a Python string. -/
def PyVal.isStr : PyVal → Bool
  | .str _ => true
  | .int _ => false

/-- Python `str.join` preparation: collect the elements of the sequence,
raising `TypeError` at the first element that is not a string. -/
def pyStrList : List PyVal → Except String (List String)
  | [] => .ok []
  | .str s :: xs => (pyStrList xs).map (fun r => s :: r)
  | .int _ :: _ => .error "TypeError: sequence item: expected str instance, int found"

/-- Embedding of the Python expression `','.join(ids)`: succeeds with the
comma-joined string when every element is a string, raises `TypeError`
otherwise. -/
def pyJoinComma (ids : List PyVal) : Except String String :=
  (pyStrList ids).map (String.intercalate ",")

/-- Embedding of `DataService.get_invoices_by_id` (`data.py` lines 455–471):
the options dict is built by comma-joining the ids (which can raise
`TypeError` before the fetch is issued), then a single fetch is issued. -/
def get_invoices_by_id {α : Type} (getAll : FetchCall → List α) (ids : List PyVal) :
    Except String (FetchResult α) :=
  (pyJoinComma ids).map (fun joined =>
    let call : FetchCall := ⟨"accounting", "invoices", endpointDefaultVersion, [("ids", joined)]⟩
    { records := getAll call, calls := [call], warnings := [] })

/-- Embedding of `DataService.get_payments_for_invoices` (`data.py` lines
543–562): same comma-join shape against `accounting/payments` with the
`appliedToInvoiceIds` filter. -/
def get_payments_for_invoices {α : Type} (getAll : FetchCall → List α) (invoice_ids : List PyVal) :
    Except String (FetchResult α) :=
  (pyJoinComma invoice_ids).map (fun joined =>
    let call : FetchCall := ⟨"accounting", "payments", endpointDefaultVersion,
                             [("appliedToInvoiceIds", joined)]⟩
    { records := getAll call, calls := [call], warnings := [] })

/-- Embedding of `DataService.get_estimates_by_job_id` (`data.py` lines 473–489). -/
def get_estimates_by_job_id {α : Type} (getAll : FetchCall → List α) (job_id : String) :
    FetchResult α :=
  let call : FetchCall := ⟨"sales", "estimates", endpointDefaultVersion, [("jobId", job_id)]⟩
  { records := getAll call, calls := [call], warnings := [] }

/-- Embedding of `DataService.get_appointment_assignments_by_job_id`
(`data.py` lines 491–507). -/
def get_appointment_assignments_by_job_id {α : Type} (getAll : FetchCall → List α)
    (job_id : String) : FetchResult α :=
  let call : FetchCall := ⟨"dispatch", "appointment-assignments", endpointDefaultVersion,
                           [("jobId", job_id)]⟩
  { records := getAll call, calls := [call], warnings := [] }

/-- The fetch issued by `DataService.get_technician_by_id` (`data.py` lines
509–525): `settings/technicians` filtered by `ids=tech_id`. -/
def technicianCall (tech_id : String) : FetchCall :=
  ⟨"settings", "technicians", endpointDefaultVersion, [("ids", tech_id)]⟩

/-- Embedding of `DataService.get_technician_by_id` (`data.py` lines 509–525):
returns element `[0]` of the fetched sequence; Python raises `IndexError` on
an empty sequence, embedded as `none`. -/
def get_technician_by_id {α : Type} (getAll : FetchCall → List α) (tech_id : String) :
    Option α :=
  (getAll (technicianCall tech_id))[0]?

/-- Embedding of `DataService.get_employees` (`data.py` lines 257–277). -/
def get_employees {α : Type} (getAll : FetchCall → List α) (active : String := "True") :
    FetchResult α :=
  let call : FetchCall := ⟨"settings", "employees", endpointDefaultVersion, [("active", active)]⟩
  { records := getAll call, calls := [call], warnings := [] }

/-- Embedding of `DataService.get_technicians` (`data.py` lines 279–299). -/
def get_technicians {α : Type} (getAll : FetchCall → List α) (active : String := "True") :
    FetchResult α :=
  let call : FetchCall := ⟨"settings", "technicians", endpointDefaultVersion, [("active", active)]⟩
  { records := getAll call, calls := [call], warnings := [] }

/-- Embedding of `DataService.get_tag_types` (`data.py` lines 301–320). -/
def get_tag_types {α : Type} (getAll : FetchCall → List α) (active : String := "True") :
    FetchResult α :=
  let call : FetchCall := ⟨"settings", "tag-types", endpointDefaultVersion, [("active", active)]⟩
  { records := getAll call, calls := [call], warnings := [] }

/-- Embedding of `DataService.get_business_units` (`data.py` lines 322–341). -/
def get_business_units {α : Type} (getAll : FetchCall → List α) (active : String := "True") :
    FetchResult α :=
  let call : FetchCall := ⟨"settings", "business-units", endpointDefaultVersion,
                           [("active", active)]⟩
  { records := getAll call, calls := [call], warnings := [] }

/-- Embedding of `DataService.get_job_types` (`data.py` lines 343–361):
the default for `active` is `"Any"`, unlike the other listing methods. -/
def get_job_types {α : Type} (getAll : FetchCall → List α) (active : String := "Any") :
    FetchResult α :=
  let call : FetchCall := ⟨"jpm", "job-types", endpointDefaultVersion, [("active", active)]⟩
  { records := getAll call, calls := [call], warnings := [] }

/-- Embedding of `DataService.get_all_technicians` (`data.py` lines 527–541). -/
def get_all_technicians {α : Type} (getAll : FetchCall → List α) : FetchResult α :=
  let call : FetchCall := ⟨"settings", "technicians", endpointDefaultVersion, []⟩
  { records := getAll call, calls := [call], warnings := [] }

/-- Embedding of `DataService.get_all_tag_types` (`data.py` lines 564–578). -/
def get_all_tag_types {α : Type} (getAll : FetchCall → List α) : FetchResult α :=
  let call : FetchCall := ⟨"settings", "tag-types", endpointDefaultVersion, []⟩
  { records := getAll call, calls := [call], warnings := [] }

/-- A line item of a sold-estimate record as `get_total_sales_between` reads
it: `sku['total']` is present (`some`) or absent (`none`, a Python `KeyError`). -/
structure EstItem where
  total : Option Int
deriving Repr, DecidableEq

/-- A sold-estimate record as `get_total_sales_between` reads it:
`row["items"]` is present (`some`) or absent (`none`, a Python `KeyError`). -/
structure EstRecord where
  items : Option (List EstItem)
deriving Repr, DecidableEq

/-- Embedding of `DataService.get_total_sales_between` (`data.py` lines
180–205): fetch the sold estimates, then `sales = 0` and a nested loop
`for row in data: for sku in row["items"]: sales += sku['total']`, where a
missing `items` or `total` field raises `KeyError`. -/
def get_total_sales_between (getAll : FetchCall → List EstRecord) (tz : String)
    (conv : String → String → String) (start_date end_date : String) : Except String Int :=
  let data := (get_sold_estimates_between getAll tz conv start_date end_date).records
  data.foldlM
    (fun sales row =>
      match row.items with
      | none => .error "KeyError: items"
      | some skus =>
        skus.foldlM
          (fun acc sku =>
            match sku.total with
            | none => .error "KeyError: total"
            | some t => .ok (acc + t))
          sales)
    0

/-- A heap of Python dict objects: a caller-supplied options dict is an
object identified by a location, and `Store` maps locations to current
dict contents.  Used to state in-place mutation of a caller's dict. -/
abbrev Store := Nat → Dict

/-- Write the dict object at location `ref`. -/
def storeSet (σ : Store) (ref : Nat) (d : Dict) : Store :=
  fun n => if n = ref then d else σ n

/-- State-explicit embedding of `DataService.get_api_data_between`
(`data.py` lines 41–63) for the case where the caller supplies an options
dict object (so `options is None` is false): the two Python item assignments
`options[f"{date_filter_modifier}OnOrAfter"] = ...` and
`options[f"{date_filter_modifier}Before"] = ...` write through the caller's
object at location `ref`, and the dict's current contents are then delegated
to `get_api_data`.  Returns the fetch result together with the final heap. -/
def get_api_data_between_state {α : Type} (getAll : FetchCall → List α) (tz : String)
    (conv : String → String → String) (folder endpoint start_date end_date : String)
    (date_filter_modifier : String) (σ : Store) (ref : Nat) (version : String) :
    FetchResult α × Store :=
  let σ1 := storeSet σ ref (setKey (σ ref) (date_filter_modifier ++ "OnOrAfter") (conv start_date tz))
  let σ2 := storeSet σ1 ref (setKey (σ1 ref) (date_filter_modifier ++ "Before") (conv end_date tz))
  (get_api_data getAll folder endpoint (some (σ2 ref)) version, σ2)

/-- Suffix test on strings, by their character lists.  Used to express the
spec's naming convention for date-bound query keys (`...OnOrAfter`,
`...Before`). -/
def strEndsWith (s suf : String) : Bool :=
  suf.data.isSuffixOf s.data

/-- Number of keys of an options dict ending in the given suffix. -/
def countSuffix (d : Dict) (suf : String) : Nat :=
  (d.filter (fun p => strEndsWith p.1 suf)).length

/-- The lower-bound and upper-bound date filters of an options dict: the
entries whose key ends in `After` (this covers both the `...OnOrAfter` and
the `...After` naming) paired with the entries whose key ends in `Before`. -/
def dateBoundPair (d : Dict) : Dict × Dict :=
  (d.filter (fun p => strEndsWith p.1 "After"), d.filter (fun p => strEndsWith p.1 "Before"))

/-- Whether every sold-estimate record has an `items` field and every one of
its items has a `total` field — the shape `get_total_sales_between` needs to
finish without a `KeyError`. -/
def estWellFormed (rs : List EstRecord) : Bool :=
  rs.all (fun r =>
    match r.items with
    | none => false
    | some skus => skus.all (fun i => i.total.isSome))

/-- The sum of the `total` field over every element of the `items` array of
every record. -/
def estTotal (rs : List EstRecord) : Int :=
  (rs.map (fun r => ((r.items.getD []).map (fun i => i.total.getD 0)).sum)).sum

/-! ### Helper lemmas -/

theorem getKey_setKey_self (d : Dict) (k v : String) : getKey (setKey d k v) k = some v := by
  induction d with
  | nil => simp [setKey, getKey]
  | cons p rest ih =>
    by_cases h : p.1 = k
    · simp [setKey, h, getKey]
    · have hb : (p.1 == k) = false := by simp [h]
      simp [setKey, hb, getKey, ih]

theorem getKey_setKey_ne (d : Dict) (k k' v : String) (h : k' ≠ k) :
    getKey (setKey d k v) k' = getKey d k' := by
  induction d with
  | nil =>
    have hb : (k == k') = false := by simp [Ne.symm h]
    simp [setKey, getKey, hb]
  | cons p rest ih =>
    by_cases hp : p.1 = k
    · have hb : (k == k') = false := by simp [Ne.symm h]
      have hb' : (p.1 == k') = false := by simp [hp, Ne.symm h]
      simp [setKey, hp, getKey, hb, hb']
    · have hbp : (p.1 == k) = false := by simp [hp]
      by_cases hq : p.1 = k'
      · have hbq : (p.1 == k') = true := by simp [hq]
        simp [setKey, hbp, getKey, hbq]
      · have hbq : (p.1 == k') = false := by simp [hq]
        simp [setKey, hbp, getKey, hbq, ih]

theorem append_OnOrAfter_ne_append_Before (s : String) :
    s ++ "OnOrAfter" ≠ s ++ "Before" := by
  intro h
  have h' := congrArg String.length h
  rw [String.length_append, String.length_append] at h'
  have h9 : ("OnOrAfter" : String).length = 9 := rfl
  have h6 : ("Before" : String).length = 6 := rfl
  omega

theorem foldl_extend_spec {α : Type} (getAll : FetchCall → List α) (mkCall : String → FetchCall) :
    ∀ (sts : List String) (acc : FetchResult α),
      sts.foldl (fun acc status =>
          { records := acc.records ++ getAll (mkCall status),
            calls := acc.calls ++ [mkCall status],
            warnings := acc.warnings }) acc
        = { records := acc.records ++ (sts.map (fun status => getAll (mkCall status))).flatten,
            calls := acc.calls ++ sts.map mkCall,
            warnings := acc.warnings } := by
  intro sts
  induction sts with
  | nil => intro acc; simp
  | cons st rest ih =>
    intro acc
    simp only [List.foldl_cons, List.map_cons, List.flatten]
    rw [ih]
    simp [List.append_assoc]

@[simp]
theorem except_ok_bind {ε α β : Type} (a : α) (f : α → Except ε β) :
    (Except.ok a >>= f) = f a := rfl

@[simp]
theorem except_error_bind {ε α β : Type} (msg : ε) (f : α → Except ε β) :
    ((Except.error msg : Except ε α) >>= f) = Except.error msg := rfl

theorem sku_foldlM_ok (skus : List EstItem) (acc : Int)
    (h : skus.all (fun i => i.total.isSome) = true) :
    skus.foldlM
        (fun acc sku =>
          match sku.total with
          | none => Except.error "KeyError: total"
          | some t => Except.ok (acc + t))
        acc
      = Except.ok (acc + (skus.map (fun i => i.total.getD 0)).sum) := by
  induction skus generalizing acc with
  | nil => simp only [List.foldlM_nil, List.map_nil, List.sum_nil, add_zero]; rfl
  | cons i rest ih =>
    simp only [List.all_cons, Bool.and_eq_true] at h
    obtain ⟨t, ht⟩ := Option.isSome_iff_exists.mp h.1
    rw [List.foldlM_cons, ht]
    simp only [except_ok_bind, ih _ h.2, ht, List.map_cons, List.sum_cons, Option.getD_some]
    rw [add_assoc]

theorem sku_foldlM_error (skus : List EstItem) (acc : Int)
    (h : skus.all (fun i => i.total.isSome) = false) :
    skus.foldlM
        (fun acc sku =>
          match sku.total with
          | none => Except.error "KeyError: total"
          | some t => Except.ok (acc + t))
        acc
      = Except.error "KeyError: total" := by
  induction skus generalizing acc with
  | nil => simp at h
  | cons i rest ih =>
    cases ht : i.total with
    | none => rw [List.foldlM_cons, ht]; rfl
    | some t =>
      have hrest : rest.all (fun i => i.total.isSome) = false := by
        simpa [List.all_cons, ht] using h
      rw [List.foldlM_cons, ht]
      simp only [except_ok_bind, ih _ hrest]

theorem row_foldlM_ok (rs : List EstRecord) (acc : Int)
    (h : estWellFormed rs = true) :
    rs.foldlM
        (fun sales row =>
          match row.items with
          | none => Except.error "KeyError: items"
          | some skus =>
            skus.foldlM
              (fun acc sku =>
                match sku.total with
                | none => Except.error "KeyError: total"
                | some t => Except.ok (acc + t))
              sales)
        acc
      = Except.ok (acc + estTotal rs) := by
  induction rs generalizing acc with
  | nil => simp only [List.foldlM_nil, estTotal, List.map_nil, List.sum_nil, add_zero]; rfl
  | cons r rest ih =>
    rw [estWellFormed, List.all_cons, Bool.and_eq_true] at h
    obtain ⟨h1, h2⟩ := h
    cases hr : r.items with
    | none => rw [hr] at h1; cases h1
    | some skus =>
      rw [hr] at h1
      simp only [List.foldlM_cons, hr]
      rw [sku_foldlM_ok skus acc h1, except_ok_bind, ih _ h2]
      simp [estTotal, hr, add_assoc]

theorem row_foldlM_error (rs : List EstRecord) (acc : Int)
    (h : estWellFormed rs = false) :
    ∃ msg,
      rs.foldlM
          (fun sales row =>
            match row.items with
            | none => Except.error "KeyError: items"
            | some skus =>
              skus.foldlM
                (fun acc sku =>
                  match sku.total with
                  | none => Except.error "KeyError: total"
                  | some t => Except.ok (acc + t))
                sales)
          acc
        = Except.error msg := by
  induction rs generalizing acc with
  | nil => simp [estWellFormed] at h
  | cons r rest ih =>
    cases hr : r.items with
    | none =>
      refine ⟨"KeyError: items", ?_⟩
      simp only [List.foldlM_cons, hr, except_error_bind]
    | some skus =>
      cases hall : skus.all (fun i => i.total.isSome) with
      | false =>
        refine ⟨"KeyError: total", ?_⟩
        simp only [List.foldlM_cons, hr]
        rw [sku_foldlM_error skus acc hall]
        rfl
      | true =>
        have hrest : estWellFormed rest = false := by
          simpa [estWellFormed, List.all_cons, hr, hall] using h
        obtain ⟨msg, hmsg⟩ := ih (acc + (skus.map (fun i => i.total.getD 0)).sum) hrest
        refine ⟨msg, ?_⟩
        simp only [List.foldlM_cons, hr]
        rw [sku_foldlM_ok skus acc hall, except_ok_bind, hmsg]

theorem pyStrList_spec (ids : List PyVal) :
    (ids.all PyVal.isStr = true → ∃ l, pyStrList ids = .ok l)
    ∧ (ids.all PyVal.isStr = false →
        pyStrList ids = .error "TypeError: sequence item: expected str instance, int found") := by
  induction ids with
  | nil => exact ⟨fun _ => ⟨[], rfl⟩, by simp⟩
  | cons x rest ih =>
    cases x with
    | str s =>
      constructor
      · intro h
        rw [List.all_cons, Bool.and_eq_true] at h
        obtain ⟨l, hl⟩ := ih.1 h.2
        exact ⟨s :: l, by rw [pyStrList, hl]; rfl⟩
      · intro h
        have hrest : rest.all PyVal.isStr = false := by
          simpa [List.all_cons, PyVal.isStr] using h
        rw [pyStrList, ih.2 hrest]
        rfl
    | int n =>
      constructor
      · intro h
        simp [List.all_cons, PyVal.isStr] at h
      · intro _
        rfl

/-! ### Claim theorems -/

/-- C1: for every list of statuses, `get_jobs_completed_between` and
`get_appointments_between` issue exactly one underlying fetch per status, in
the order the statuses were given, and return the concatenation of the
per-status result lists in that same order. -/
theorem per_status_one_fetch_concat_in_order {α : Type} (getAll : FetchCall → List α)
    (tz : String) (conv : String → String → String) (start_date end_date : String)
    (sts : List String) (app_guid : Option String) :
    get_jobs_completed_between getAll tz conv start_date end_date sts app_guid
      = { records := (sts.map (fun st =>
            getAll (jobsCompletedCall tz conv start_date end_date app_guid st))).flatten,
          calls := sts.map (jobsCompletedCall tz conv start_date end_date app_guid),
          warnings := [] }
    ∧ get_appointments_between getAll tz conv start_date end_date sts
      = { records := (sts.map (fun st =>
            getAll (appointmentsCall tz conv start_date end_date st))).flatten,
          calls := sts.map (appointmentsCall tz conv start_date end_date),
          warnings := [] } := by
  constructor
  · simpa [get_jobs_completed_between] using
      foldl_extend_spec getAll (jobsCompletedCall tz conv start_date end_date app_guid) sts
        ⟨[], [], []⟩
  · simpa [get_appointments_between] using
      foldl_extend_spec getAll (appointmentsCall tz conv start_date end_date) sts ⟨[], [], []⟩

/-- C2 counterexample: calling `get_api_data` with an explicitly supplied
empty options dict emits no warning (the code only checks `options is None`),
although the unfiltered fetch is still issued. -/
theorem get_api_data_explicit_empty_no_warning :
    (get_api_data (fun _ => ([] : List Nat)) "accounting" "invoices" (some []) "2").warnings = []
    ∧ (get_api_data (fun _ => ([] : List Nat)) "accounting" "invoices" (some []) "2").calls
        = [⟨"accounting", "invoices", "2", []⟩] := by
  exact ⟨rfl, rfl⟩

/-- C2 amended: `get_api_data` emits its unbounded-call warning exactly when
`options` is absent (`None`); in every case — absent or explicitly empty —
it still delegates the (possibly empty) options to the collaborator's paged
fetch, so the warning never blocks the call. -/
theorem get_api_data_warning_iff_options_absent {α : Type} (getAll : FetchCall → List α)
    (folder endpoint version : String) (options : Option Dict) :
    ((get_api_data getAll folder endpoint options version).warnings ≠ [] ↔ options = none)
    ∧ (get_api_data getAll folder endpoint options version).calls
        = [⟨folder, endpoint, version, options.getD []⟩]
    ∧ (get_api_data getAll folder endpoint options version).records
        = getAll ⟨folder, endpoint, version, options.getD []⟩ := by
  cases options <;> simp [get_api_data]

/-- C5: `get_technician_by_id` returns the first element of the sequence the
collaborator returns for the `ids=tech_id` filter; on an empty sequence the
indexing fails (`IndexError`, embedded as `none`). -/
theorem get_technician_by_id_first_or_fail {α : Type} (getAll : FetchCall → List α)
    (tech_id : String) :
    (∀ (r : α) (rest : List α), getAll (technicianCall tech_id) = r :: rest →
        get_technician_by_id getAll tech_id = some r)
    ∧ (getAll (technicianCall tech_id) = [] → get_technician_by_id getAll tech_id = none) := by
  constructor
  · intro r rest h
    simp [get_technician_by_id, h]
  · intro h
    simp [get_technician_by_id, h]

/-- C5 witness: a collaborator returning the single record `7` yields `7`;
one returning the empty sequence makes the call fail. -/
theorem get_technician_by_id_first_or_fail_witness :
    get_technician_by_id (fun _ => [(7 : Nat)]) "42" = some 7
    ∧ get_technician_by_id (fun _ => ([] : List Nat)) "42" = none :=
  ⟨(get_technician_by_id_first_or_fail (fun _ => [(7 : Nat)]) "42").1 7 [] rfl,
   (get_technician_by_id_first_or_fail (fun _ => ([] : List Nat)) "42").2 rfl⟩

/-- C3 counterexample: the lower-bound keys emitted by
`get_sold_estimates_between` (`soldAfter`) and `get_payments_between`
(`paidOnAfter`) are not "on-or-after" keys — each of those two operations
emits zero keys ending in `OnOrAfter`, not exactly one. -/
theorem sold_and_paid_lower_bound_not_on_or_after :
    ((get_sold_estimates_between (fun _ => ([] : List Nat)) "UTC" (fun d _ => d)
        "2024-01-01" "2024-02-01").calls.map
        (fun c => countSuffix c.options "OnOrAfter") = [0])
    ∧ ((get_payments_between (fun _ => ([] : List Nat)) "UTC" (fun d _ => d)
        "2024-01-01" "2024-02-01").calls.map
        (fun c => countSuffix c.options "OnOrAfter") = [0]) :=
  ⟨rfl, rfl⟩

/-- C3 amended: every "between" operation emits an options map containing
exactly one lower-bound date key (ending in `After`) valued at the start date
converted through the bound timezone, and exactly one upper-bound date key
(ending in `Before`) valued at the end date so converted; the lower-bound key
follows the `...OnOrAfter` naming except that sold-estimates uses `soldAfter`
and payments uses `paidOnAfter` (and the upper-bound key is `paidOnBefore` /
`invoicedOnBefore` for payments / invoices). -/
theorem between_ops_one_lower_one_upper_bound {α : Type} (getAll : FetchCall → List α)
    (tz : String) (conv : String → String → String) (s e : String)
    (sts : List String) (guid : Option String) :
    (∀ c ∈ (get_jobs_completed_between getAll tz conv s e sts guid).calls,
        dateBoundPair c.options
          = ([("completedOnOrAfter", conv s tz)], [("completedBefore", conv e tz)]))
    ∧ (∀ c ∈ (get_jobs_created_between getAll tz conv s e guid).calls,
        dateBoundPair c.options
          = ([("createdOnOrAfter", conv s tz)], [("createdBefore", conv e tz)]))
    ∧ (∀ c ∈ (get_jobs_modified_between getAll tz conv s e guid).calls,
        dateBoundPair c.options
          = ([("modifiedOnOrAfter", conv s tz)], [("modifiedBefore", conv e tz)]))
    ∧ (∀ c ∈ (get_appointments_between getAll tz conv s e sts).calls,
        dateBoundPair c.options
          = ([("startsOnOrAfter", conv s tz)], [("startsBefore", conv e tz)]))
    ∧ (∀ c ∈ (get_sold_estimates_between getAll tz conv s e).calls,
        dateBoundPair c.options
          = ([("soldAfter", conv s tz)], [("soldBefore", conv e tz)]))
    ∧ (∀ c ∈ (get_purchase_orders_created_between getAll tz conv s e).calls,
        dateBoundPair c.options
          = ([("createdOnOrAfter", conv s tz)], [("createdBefore", conv e tz)]))
    ∧ (∀ c ∈ (get_calls_between getAll tz conv s e).calls,
        dateBoundPair c.options
          = ([("createdOnOrAfter", conv s tz)], [("createdBefore", conv e tz)]))
    ∧ (∀ c ∈ (get_bookings_between getAll tz conv s e).calls,
        dateBoundPair c.options
          = ([("createdOnOrAfter", conv s tz)], [("createdBefore", conv e tz)]))
    ∧ (∀ c ∈ (get_payments_between getAll tz conv s e).calls,
        dateBoundPair c.options
          = ([("paidOnAfter", conv s tz)], [("paidOnBefore", conv e tz)]))
    ∧ (∀ c ∈ (get_invoices_between getAll tz conv s e).calls,
        dateBoundPair c.options
          = ([("invoicedOnOrAfter", conv s tz)], [("invoicedOnBefore", conv e tz)])) := by
  have hj : (get_jobs_completed_between getAll tz conv s e sts guid).calls
      = sts.map (jobsCompletedCall tz conv s e guid) := by
    simpa [get_jobs_completed_between] using
      congrArg FetchResult.calls
        (foldl_extend_spec getAll (jobsCompletedCall tz conv s e guid) sts ⟨[], [], []⟩)
  have ha : (get_appointments_between getAll tz conv s e sts).calls
      = sts.map (appointmentsCall tz conv s e) := by
    simpa [get_appointments_between] using
      congrArg FetchResult.calls
        (foldl_extend_spec getAll (appointmentsCall tz conv s e) sts ⟨[], [], []⟩)
  refine ⟨?_, ?_, ?_, ?_, ?_, ?_, ?_, ?_, ?_, ?_⟩
  · intro c hc
    rw [hj] at hc
    obtain ⟨st, _, rfl⟩ := List.mem_map.mp hc
    cases guid with
    | none => rfl
    | some g => rfl
  · intro c hc
    cases guid with
    | none =>
      obtain rfl : c = _ := List.mem_singleton.mp hc
      rfl
    | some g =>
      obtain rfl : c = _ := List.mem_singleton.mp hc
      rfl
  · intro c hc
    cases guid with
    | none =>
      obtain rfl : c = _ := List.mem_singleton.mp hc
      rfl
    | some g =>
      obtain rfl : c = _ := List.mem_singleton.mp hc
      rfl
  · intro c hc
    rw [ha] at hc
    obtain ⟨st, _, rfl⟩ := List.mem_map.mp hc
    rfl
  · intro c hc
    obtain rfl : c = _ := List.mem_singleton.mp hc
    rfl
  · intro c hc
    obtain rfl : c = _ := List.mem_singleton.mp hc
    rfl
  · intro c hc
    obtain rfl : c = _ := List.mem_singleton.mp hc
    rfl
  · intro c hc
    obtain rfl : c = _ := List.mem_singleton.mp hc
    rfl
  · intro c hc
    obtain rfl : c = _ := List.mem_singleton.mp hc
    rfl
  · intro c hc
    obtain rfl : c = _ := List.mem_singleton.mp hc
    rfl

/-- C3 witness: the amended invariant applied at a concrete timezone, date
converter and date pair, for the fetch `get_sold_estimates_between` issues. -/
theorem between_ops_one_lower_one_upper_bound_witness :
    dateBoundPair
        ([("active", "True"), ("soldAfter", "2024-01-01"), ("soldBefore", "2024-02-01")] : Dict)
      = ([("soldAfter", "2024-01-01")], [("soldBefore", "2024-02-01")]) :=
  (between_ops_one_lower_one_upper_bound (fun _ => ([] : List Nat)) "UTC" (fun d _ => d)
      "2024-01-01" "2024-02-01" ["Completed"] none).2.2.2.2.1
    ⟨"sales", "estimates", "2",
      [("active", "True"), ("soldAfter", "2024-01-01"), ("soldBefore", "2024-02-01")]⟩
    (by decide)

/-- C8: `get_invoices_by_id` on `["1", "2", "3"]` issues exactly one fetch
whose options are exactly the single filter `ids = "1,2,3"`. -/
theorem get_invoices_by_id_comma_join {α : Type} (getAll : FetchCall → List α) :
    get_invoices_by_id getAll [PyVal.str "1", PyVal.str "2", PyVal.str "3"]
      = .ok { records := getAll ⟨"accounting", "invoices", "2", [("ids", "1,2,3")]⟩,
              calls := [⟨"accounting", "invoices", "2", [("ids", "1,2,3")]⟩],
              warnings := [] } := by
  rfl

/-- C4: `get_total_sales_between` sums the `total` field over every element
of the `items` array of every record returned by the sold-estimates fetch: on
the two records `[{items:[{total:10},{total:5}]}, {items:[{total:3}]}]` it
returns `18`; it returns the full sum whenever every record has `items` and
every item has `total`, and fails (`KeyError`) otherwise. -/
theorem total_sales_sums_item_totals :
    (get_total_sales_between
        (fun _ => [⟨some [⟨some 10⟩, ⟨some 5⟩]⟩, ⟨some [⟨some 3⟩]⟩]) "UTC" (fun d _ => d)
        "2024-01-01" "2024-02-01" = .ok 18)
    ∧ (∀ (getAll : FetchCall → List EstRecord) (tz : String)
        (conv : String → String → String) (s e : String),
        (estWellFormed (get_sold_estimates_between getAll tz conv s e).records = true →
          get_total_sales_between getAll tz conv s e
            = .ok (estTotal (get_sold_estimates_between getAll tz conv s e).records))
        ∧ (estWellFormed (get_sold_estimates_between getAll tz conv s e).records = false →
          ∃ msg, get_total_sales_between getAll tz conv s e = .error msg)) := by
  refine ⟨rfl, ?_⟩
  intro getAll tz conv s e
  constructor
  · intro h
    simpa using row_foldlM_ok (get_sold_estimates_between getAll tz conv s e).records 0 h
  · intro h
    simpa using row_foldlM_error (get_sold_estimates_between getAll tz conv s e).records 0 h

/-- C4 witness: a record lacking `items` makes the aggregation fail, and a
well-formed record list makes it return the sum of its item totals. -/
theorem total_sales_sums_item_totals_witness :
    (∃ msg, get_total_sales_between (fun _ => [({ items := none } : EstRecord)]) "UTC"
        (fun d _ => d) "2024-01-01" "2024-02-01" = .error msg)
    ∧ get_total_sales_between (fun _ => [({ items := some [⟨some 2⟩] } : EstRecord)]) "UTC"
        (fun d _ => d) "2024-01-01" "2024-02-01"
      = .ok (estTotal [({ items := some [⟨some 2⟩] } : EstRecord)]) :=
  ⟨(total_sales_sums_item_totals.2 (fun _ => [({ items := none } : EstRecord)]) "UTC"
      (fun d _ => d) "2024-01-01" "2024-02-01").2 rfl,
   (total_sales_sums_item_totals.2 (fun _ => [({ items := some [⟨some 2⟩] } : EstRecord)]) "UTC"
      (fun d _ => d) "2024-01-01" "2024-02-01").1 rfl⟩

/-- C6: `get_api_data_between` writes the keys `{dateField}OnOrAfter` and
`{dateField}Before` (values converted through the bound timezone) into the
caller-supplied options, overwriting caller-supplied values under those two
keys, leaving every other caller key untouched, and returns exactly what
delegating the merged map to `get_api_data` returns; with no optional
arguments supplied, the date field defaults to `"completed"`, the options to
absent and the version to `2`. -/
theorem get_api_data_between_merges_and_delegates {α : Type} (getAll : FetchCall → List α)
    (tz : String) (conv : String → String → String)
    (folder endpoint s e dfm : String) (opts : Dict) (version : String) :
    (get_api_data_between getAll tz conv folder endpoint s e dfm (some opts) version
      = get_api_data getAll folder endpoint
          (some (setKey (setKey opts (dfm ++ "OnOrAfter") (conv s tz))
            (dfm ++ "Before") (conv e tz)))
          version)
    ∧ getKey (setKey (setKey opts (dfm ++ "OnOrAfter") (conv s tz))
          (dfm ++ "Before") (conv e tz)) (dfm ++ "OnOrAfter") = some (conv s tz)
    ∧ getKey (setKey (setKey opts (dfm ++ "OnOrAfter") (conv s tz))
          (dfm ++ "Before") (conv e tz)) (dfm ++ "Before") = some (conv e tz)
    ∧ (∀ k, k ≠ dfm ++ "OnOrAfter" → k ≠ dfm ++ "Before" →
        getKey (setKey (setKey opts (dfm ++ "OnOrAfter") (conv s tz))
          (dfm ++ "Before") (conv e tz)) k = getKey opts k)
    ∧ get_api_data_between getAll tz conv folder endpoint s e
      = get_api_data_between getAll tz conv folder endpoint s e "completed" none "2" := by
  refine ⟨rfl, ?_, ?_, ?_, rfl⟩
  · rw [getKey_setKey_ne _ _ _ _ (append_OnOrAfter_ne_append_Before dfm), getKey_setKey_self]
  · exact getKey_setKey_self _ _ _
  · intro k h1 h2
    rw [getKey_setKey_ne _ _ _ _ h2, getKey_setKey_ne _ _ _ _ h1]

/-- C6 witness: with a caller-supplied dict holding an unrelated key `x`,
that key's value survives the merge unchanged. -/
theorem get_api_data_between_merges_and_delegates_witness :
    getKey (setKey (setKey [("x", "1")] ("created" ++ "OnOrAfter") "2024")
        ("created" ++ "Before") "2025") "x" = some "1" :=
  (get_api_data_between_merges_and_delegates (fun _ => ([] : List Nat)) "UTC" (fun d _ => d)
      "accounting" "invoices" "2024" "2025" "created" [("x", "1")] "2").2.2.2.1 "x"
    (by decide) (by decide)

/-- C9: the state-explicit embedding of `get_api_data_between` shows the
caller-supplied options object is mutated in place: after the call, the dict
object at the caller's location holds the original contents with the two
date-filter keys written in; no other heap object changes, and the fetch
delegates exactly that mutated dict. -/
theorem get_api_data_between_state_mutates_in_place {α : Type} (getAll : FetchCall → List α)
    (tz : String) (conv : String → String → String) (folder endpoint s e dfm : String)
    (σ : Store) (ref : Nat) (version : String) :
    ((get_api_data_between_state getAll tz conv folder endpoint s e dfm σ ref version).2 ref
      = setKey (setKey (σ ref) (dfm ++ "OnOrAfter") (conv s tz)) (dfm ++ "Before") (conv e tz))
    ∧ getKey ((get_api_data_between_state getAll tz conv folder endpoint s e dfm σ ref
          version).2 ref) (dfm ++ "OnOrAfter") = some (conv s tz)
    ∧ getKey ((get_api_data_between_state getAll tz conv folder endpoint s e dfm σ ref
          version).2 ref) (dfm ++ "Before") = some (conv e tz)
    ∧ (∀ n, n ≠ ref →
        (get_api_data_between_state getAll tz conv folder endpoint s e dfm σ ref version).2 n
          = σ n)
    ∧ (get_api_data_between_state getAll tz conv folder endpoint s e dfm σ ref version).1
      = get_api_data getAll folder endpoint
          (some ((get_api_data_between_state getAll tz conv folder endpoint s e dfm σ ref
            version).2 ref)) version := by
  have h2 : (get_api_data_between_state getAll tz conv folder endpoint s e dfm σ ref version).2 ref
      = setKey (setKey (σ ref) (dfm ++ "OnOrAfter") (conv s tz)) (dfm ++ "Before") (conv e tz) := by
    simp [get_api_data_between_state, storeSet]
  refine ⟨h2, ?_, ?_, ?_, rfl⟩
  · rw [h2, getKey_setKey_ne _ _ _ _ (append_OnOrAfter_ne_append_Before dfm), getKey_setKey_self]
  · rw [h2, getKey_setKey_self]
  · intro n hn
    simp [get_api_data_between_state, storeSet, hn]

/-- C9 witness: with one dict object on the heap at location `0`, the object
at the untouched location `1` is unchanged by the call. -/
theorem get_api_data_between_state_mutates_in_place_witness :
    (get_api_data_between_state (fun _ => ([] : List Nat)) "UTC" (fun d _ => d) "jpm" "jobs"
        "2024-01-01" "2024-02-01" "completed" (fun _ => ([] : Dict)) 0 "2").2 1
      = (fun _ => ([] : Dict)) 1 :=
  (get_api_data_between_state_mutates_in_place (fun _ => ([] : List Nat)) "UTC" (fun d _ => d)
      "jpm" "jobs" "2024-01-01" "2024-02-01" "completed" (fun _ => ([] : Dict)) 0 "2").2.2.2.1
    1 (by decide)

/-- C10: the comma-join in `get_invoices_by_id` and
`get_payments_for_invoices` raises a `TypeError` — before any request is
issued — whenever some element of the id list is not a string, and both
operations succeed when every element is a string. -/
theorem comma_join_requires_strings {α : Type} (getAll : FetchCall → List α) (ids : List PyVal) :
    ((∃ x ∈ ids, PyVal.isStr x = false) →
      ∃ msg, get_invoices_by_id getAll ids = .error msg
        ∧ get_payments_for_invoices getAll ids = .error msg)
    ∧ ((∀ x ∈ ids, PyVal.isStr x = true) →
      (∃ r, get_invoices_by_id getAll ids = .ok r)
        ∧ ∃ r, get_payments_for_invoices getAll ids = .ok r) := by
  constructor
  · rintro ⟨x, hx, hxf⟩
    have hall : ids.all PyVal.isStr = false := by
      rcases hba : ids.all PyVal.isStr with _ | _
      · rfl
      · rw [List.all_eq_true] at hba
        rw [hba x hx] at hxf
        cases hxf
    have herr := (pyStrList_spec ids).2 hall
    exact ⟨_, by rw [get_invoices_by_id, pyJoinComma, herr]; rfl,
             by rw [get_payments_for_invoices, pyJoinComma, herr]; rfl⟩
  · intro h
    have hall : ids.all PyVal.isStr = true := List.all_eq_true.mpr h
    obtain ⟨l, hl⟩ := (pyStrList_spec ids).1 hall
    exact ⟨⟨_, by rw [get_invoices_by_id, pyJoinComma, hl]; rfl⟩,
           ⟨_, by rw [get_payments_for_invoices, pyJoinComma, hl]; rfl⟩⟩

/-- C10 witness: the docstring example `get_invoices_by_id([123456, ...])`
passes integer ids; with the integer id `123456` both operations fail with a
`TypeError` before any fetch. -/
theorem comma_join_requires_strings_witness :
    ∃ msg, get_invoices_by_id (fun _ => ([] : List Nat)) [PyVal.int 123456] = .error msg
      ∧ get_payments_for_invoices (fun _ => ([] : List Nat)) [PyVal.int 123456] = .error msg :=
  (comma_join_requires_strings (fun _ => ([] : List Nat)) [PyVal.int 123456]).1
    ⟨PyVal.int 123456, by decide, rfl⟩

/-- C7: `get_calls_between` issues its request against API version 3, while
every other fetch operation of the facade that relies on the default issues
its request against API version 2 (the explicit defaults of `get_api_data` /
`get_api_data_between` and the collaborator default, modelled from the spec
as `endpointDefaultVersion = "2"`). -/
theorem calls_between_uses_version_three {α : Type} (getAll : FetchCall → List α)
    (tz : String) (conv : String → String → String) (s e : String)
    (sts : List String) (guid : Option String) (ids : List PyVal)
    (active jid tid : String) :
    ((get_calls_between getAll tz conv s e).calls.map FetchCall.version = ["3"])
    ∧ ((get_jobs_completed_between getAll tz conv s e sts guid).calls.all
        (fun c => c.version == "2") = true)
    ∧ ((get_jobs_created_between getAll tz conv s e guid).calls.map FetchCall.version = ["2"])
    ∧ ((get_jobs_modified_between getAll tz conv s e guid).calls.map FetchCall.version = ["2"])
    ∧ ((get_appointments_between getAll tz conv s e sts).calls.all
        (fun c => c.version == "2") = true)
    ∧ ((get_sold_estimates_between getAll tz conv s e).calls.map FetchCall.version = ["2"])
    ∧ ((get_purchase_orders_created_between getAll tz conv s e).calls.map FetchCall.version
        = ["2"])
    ∧ ((get_bookings_between getAll tz conv s e).calls.map FetchCall.version = ["2"])
    ∧ ((get_payments_between getAll tz conv s e).calls.map FetchCall.version = ["2"])
    ∧ ((get_invoices_between getAll tz conv s e).calls.map FetchCall.version = ["2"])
    ∧ (∀ r, get_invoices_by_id getAll ids = .ok r → r.calls.map FetchCall.version = ["2"])
    ∧ (∀ r, get_payments_for_invoices getAll ids = .ok r → r.calls.map FetchCall.version = ["2"])
    ∧ ((get_estimates_by_job_id getAll jid).calls.map FetchCall.version = ["2"])
    ∧ ((get_appointment_assignments_by_job_id getAll jid).calls.map FetchCall.version = ["2"])
    ∧ ((technicianCall tid).version = "2")
    ∧ ((get_employees getAll active).calls.map FetchCall.version = ["2"])
    ∧ ((get_technicians getAll active).calls.map FetchCall.version = ["2"])
    ∧ ((get_tag_types getAll active).calls.map FetchCall.version = ["2"])
    ∧ ((get_business_units getAll active).calls.map FetchCall.version = ["2"])
    ∧ ((get_job_types getAll active).calls.map FetchCall.version = ["2"])
    ∧ ((get_all_technicians getAll (α := α)).calls.map FetchCall.version = ["2"])
    ∧ ((get_all_tag_types getAll (α := α)).calls.map FetchCall.version = ["2"]) := by
  have hj : (get_jobs_completed_between getAll tz conv s e sts guid).calls
      = sts.map (jobsCompletedCall tz conv s e guid) := by
    simpa [get_jobs_completed_between] using
      congrArg FetchResult.calls
        (foldl_extend_spec getAll (jobsCompletedCall tz conv s e guid) sts ⟨[], [], []⟩)
  have ha : (get_appointments_between getAll tz conv s e sts).calls
      = sts.map (appointmentsCall tz conv s e) := by
    simpa [get_appointments_between] using
      congrArg FetchResult.calls
        (foldl_extend_spec getAll (appointmentsCall tz conv s e) sts ⟨[], [], []⟩)
  refine ⟨rfl, ?_, rfl, ?_, ?_, rfl, rfl, rfl, rfl, rfl, ?_, ?_, rfl, rfl, rfl, rfl, rfl, rfl,
    rfl, rfl, rfl, rfl⟩
  · rw [hj]
    simp [List.all_eq_true, List.mem_map, jobsCompletedCall, endpointDefaultVersion]
  · cases guid with
    | none => rfl
    | some g => rfl
  · rw [ha]
    simp [List.all_eq_true, List.mem_map, appointmentsCall, endpointDefaultVersion]
  · intro r hr
    rcases hpy : pyJoinComma ids with msg | j
    · rw [get_invoices_by_id, hpy] at hr
      cases hr
    · rw [get_invoices_by_id, hpy] at hr
      obtain rfl : _ = r := Except.ok.inj hr
      rfl
  · intro r hr
    rcases hpy : pyJoinComma ids with msg | j
    · rw [get_payments_for_invoices, hpy] at hr
      cases hr
    · rw [get_payments_for_invoices, hpy] at hr
      obtain rfl : _ = r := Except.ok.inj hr
      rfl

/-- C7 witness: `get_invoices_by_id` applied to a concrete string id issues
its one fetch against version 2. -/
theorem calls_between_uses_version_three_witness :
    ({ records := [],
       calls := [⟨"accounting", "invoices", "2", [("ids", "1")]⟩],
       warnings := [] } : FetchResult Nat).calls.map FetchCall.version = ["2"] :=
  (calls_between_uses_version_three (fun _ => ([] : List Nat)) "UTC" (fun d _ => d)
      "2024-01-01" "2024-02-01" [] none [PyVal.str "1"] "True" "1"
      "1").2.2.2.2.2.2.2.2.2.2.1 _ rfl

end Servicepytan
